import Mathlib

/-!
Shallow embedding of `src/static/script.js` (Agent_Coder front-end glue).

The file models the three asynchronous handlers `loadRepo`, `askQuestion`
and `generateSummary` as total functions from the raw user input and the
outcome of the single `fetch` call to the trace of observable effects the
handler performs (alerts, display writes, chat-log appends, request sends),
together with an optional exception escaping the handler.  The try/catch
structure of the source is modelled explicitly: a try block yields the
events it performed plus an optional thrown message, and `jsTry` routes a
thrown message through the catch handler.
-/

namespace AgentCoder

/-- Drop leading whitespace characters from a character list. -/
def dropLeadingWs : List Char → List Char
  | [] => []
  | c :: cs => if c.isWhitespace then dropLeadingWs cs else c :: cs

/-- JS `String.prototype.trim` as applied to the input field values:
removes leading and trailing whitespace.  (The exact JS whitespace class
also contains some exotic Unicode spaces; the claims only distinguish
empty from non-empty results, for which this class is faithful.) -/
def jsTrim (s : String) : String :=
  ⟨(dropLeadingWs (dropLeadingWs s.data).reverse).reverse⟩

/-- Whether the character list `p` is an initial segment of `s`. -/
def leadsWith : List Char → List Char → Bool
  | _, [] => true
  | [], _ :: _ => false
  | c :: cs, d :: ds => c = d && leadsWith cs ds

/-- `s.startsWith p`, computed structurally on the character lists. -/
def strStartsWith (s p : String) : Bool := leadsWith s.data p.data

/-- The string fields of a parsed JSON body that `script.js` reads
(`data.error`, `data.message`, `data.answer`, `data.summary`);
`none` models an absent field (JS `undefined`). -/
structure JsonBody where
  error : Option String
  message : Option String
  answer : Option String
  summary : Option String
deriving DecidableEq, Repr

/-- Stringification of a possibly-undefined field, as performed by a DOM
`textContent` assignment or by string concatenation: JS `undefined`
stringifies to `"undefined"`. -/
def jsToString : Option String → String
  | some s => s
  | none => "undefined"

/-- JS `v || fallback` on an optional string field: `undefined` and the
empty string are falsy, so both select the fallback. -/
def jsOrElse (v : Option String) (fallback : String) : String :=
  match v with
  | some s => if s = "" then fallback else s
  | none => fallback

instance : DecidableEq (Except String JsonBody) := fun x y =>
  match x, y with
  | .error a, .error b =>
    if h : a = b then .isTrue (by rw [h])
    else .isFalse (fun hc => h (by injection hc))
  | .error _, .ok _ => .isFalse (fun hc => Except.noConfusion hc)
  | .ok _, .error _ => .isFalse (fun hc => Except.noConfusion hc)
  | .ok a, .ok b =>
    if h : a = b then .isTrue (by rw [h])
    else .isFalse (fun hc => h (by injection hc))

/-- An HTTP response as observed by the handlers: `ok` is `resp.ok`, and
`body` is the outcome of `await resp.json()` — `.ok data` when the body
parses, `.error m` when parsing rejects with an error whose message
is `m`. -/
structure Response where
  ok : Bool
  body : Except String JsonBody
deriving DecidableEq, Repr

/-- The outcome of `await fetch(...)`: `.ok resp` when a response arrives,
`.error m` on a transport failure thrown with message `m`. -/
abbrev FetchOutcome := Except String Response

/-- The body encoding of a request issued by the handlers. -/
inductive Encoding
  | formUrlencoded
  | multipart
deriving DecidableEq, Repr

/-- A request issued by one of the handlers: the endpoint, the field
name/value pairs carried in the body, and the encoding.  The
percent-encoding applied by `encodeURIComponent` on the wire is abstracted:
the mapping records the field values themselves. -/
structure Request where
  endpoint : String
  fields : List (String × String)
  encoding : Encoding
deriving DecidableEq, Repr

/-- The display targets written by the handlers: the `files` status area
of `loadRepo` and the `summary-box` of `generateSummary`.  The chat box of
`askQuestion` is an append-only log, modelled by `Event.chatAppend`. -/
inductive Target
  | files
  | summaryBox
deriving DecidableEq, Repr

/-- An observable effect of a handler run, in program order. -/
inductive Event
  | alert (msg : String)
  | write (t : Target) (text : String)
  | chatAppend (text : String)
  | send (r : Request)
deriving DecidableEq, Repr

/-- The run of a try block: the events it performed, and `some m` when an
exception with message `m` escapes it. -/
abbrev TryRun := List Event × Option String

/-- JS try/catch: when the body throws, the catch handler's events follow
the events the body already performed.  The catch handlers in `script.js`
only write to the DOM and cannot throw. -/
def jsTry (body : TryRun) (handler : String → List Event) : TryRun :=
  match body.2 with
  | none => body
  | some e => (body.1 ++ handler e, none)

/-- The `POST /load_repo` request built by `loadRepo`. -/
def loadRepoRequest (repoUrl : String) : Request :=
  ⟨"/load_repo", [("repo_url", repoUrl)], .formUrlencoded⟩

/-- The `POST /ask` request built by `askQuestion`. -/
def askRequest (q : String) : Request :=
  ⟨"/ask", [("question", q)], .formUrlencoded⟩

/-- The `POST /process_repo` request built by `generateSummary`. -/
def processRepoRequest (role repoUrl : String) : Request :=
  ⟨"/process_repo", [("role", role), ("repo_link", repoUrl)], .multipart⟩

/-- The try block of `loadRepo`: sends the request; on transport failure
the exception escapes to the catch; otherwise the inner try parses the
body, and a parse failure clears the display and returns; only then is
`resp.ok` examined. -/
def loadRepoTry (repoUrl : String) (outcome : FetchOutcome) : TryRun :=
  match outcome with
  | .error e => ([.send (loadRepoRequest repoUrl)], some e)
  | .ok resp =>
    match resp.body with
    | .error _ =>
      ([.send (loadRepoRequest repoUrl), .write .files ""], none)
    | .ok data =>
      if !resp.ok then
        ([.send (loadRepoRequest repoUrl),
          .write .files ("Error: " ++ jsOrElse data.error "Failed to load repository")], none)
      else
        ([.send (loadRepoRequest repoUrl), .write .files (jsToString data.message)], none)

/-- `loadRepo` from `script.js`: trims the URL, alerts and returns when it
is empty, otherwise writes the loading placeholder and runs the try block
under a catch that writes `"Error: " + e.message`. -/
def loadRepo (rawUrl : String) (outcome : FetchOutcome) : TryRun :=
  let repoUrl := jsTrim rawUrl
  if repoUrl = "" then
    ([.alert "Please enter a GitHub repo URL"], none)
  else
    let r := jsTry (loadRepoTry repoUrl outcome)
      (fun e => [.write .files ("Error: " ++ e)])
    (Event.write .files "Loading repository…" :: r.1, r.2)

/-- The try block of `askQuestion`: sends the request; a transport failure
escapes; a non-ok status throws `"Failed to get answer"`; a body parse
failure escapes with the parse error's message; otherwise the bot answer
is appended to the chat log. -/
def askQuestionTry (q : String) (outcome : FetchOutcome) : TryRun :=
  match outcome with
  | .error e => ([.send (askRequest q)], some e)
  | .ok resp =>
    if !resp.ok then
      ([.send (askRequest q)], some "Failed to get answer")
    else
      match resp.body with
      | .error e => ([.send (askRequest q)], some e)
      | .ok data =>
        ([.send (askRequest q), .chatAppend ("Bot: " ++ jsToString data.answer)], none)

/-- `askQuestion` from `script.js`: trims the question, alerts and returns
when it is empty, otherwise appends the `"You: ..."` entry to the chat log
and only then runs the try block under a catch that appends
`"Error: " + e.message`. -/
def askQuestion (rawQ : String) (outcome : FetchOutcome) : TryRun :=
  let q := jsTrim rawQ
  if q = "" then
    ([.alert "Please enter a question"], none)
  else
    let r := jsTry (askQuestionTry q outcome)
      (fun e => [.chatAppend ("Error: " ++ e)])
    (Event.chatAppend ("You: " ++ q) :: r.1, r.2)

/-- The try block of `generateSummary`: sends the request; on transport
failure the exception escapes; a body parse failure writes the explicit
unexpected-response error and returns; only then is `resp.ok` examined. -/
def generateSummaryTry (role repoUrl : String) (outcome : FetchOutcome) : TryRun :=
  match outcome with
  | .error e => ([.send (processRepoRequest role repoUrl)], some e)
  | .ok resp =>
    match resp.body with
    | .error _ =>
      ([.send (processRepoRequest role repoUrl),
        .write .summaryBox "Error: Unexpected response. Please check the backend."], none)
    | .ok data =>
      if !resp.ok then
        ([.send (processRepoRequest role repoUrl),
          .write .summaryBox ("Error: " ++ jsOrElse data.error "Failed")], none)
      else
        ([.send (processRepoRequest role repoUrl),
          .write .summaryBox (jsToString data.summary)], none)

/-- `generateSummary` from `script.js`: trims both fields, writes the
inline guidance message and returns when either is empty, otherwise writes
the generating placeholder and runs the try block under a catch that
writes `"Error: " + e.message`. -/
def generateSummary (rawRole rawUrl : String) (outcome : FetchOutcome) : TryRun :=
  let role := jsTrim rawRole
  let repoUrl := jsTrim rawUrl
  if repoUrl = "" ∨ role = "" then
    ([.write .summaryBox "Please enter both repo URL and role."], none)
  else
    let r := jsTry (generateSummaryTry role repoUrl outcome)
      (fun e => [.write .summaryBox ("Error: " ++ e)])
    (Event.write .summaryBox "Generating summary…" :: r.1, r.2)

/-- The text held by a display target after a trace has run: the last
write to that target, if any. -/
def lastWrite (t : Target) (evs : List Event) : Option String :=
  evs.foldl (fun acc e =>
    match e with
    | .write u s => if u = t then some s else acc
    | _ => acc) none

/-- The chat-log entries appended by a trace, in order. -/
def chatEntries (evs : List Event) : List String :=
  evs.filterMap (fun e =>
    match e with
    | .chatAppend s => some s
    | _ => none)

/-- Whether an event is a network request send. -/
def isSend : Event → Bool
  | .send _ => true
  | _ => false

/-- Whether an event reports an error message to the operator: a display
write or chat entry whose text starts with `"Error"`. -/
def reportsError : Event → Bool
  | .write _ s => strStartsWith s "Error"
  | .chatAppend s => strStartsWith s "Error"
  | .alert _ => false
  | .send _ => false

/-- The last event of a trace, if any. -/
def lastEvent : List Event → Option Event
  | [] => none
  | [e] => some e
  | _ :: e :: es => lastEvent (e :: es)

/-- Whether a trace ends with an operator-visible report (an alert, a
display write or a chat append) rather than with a request send or
nothing at all. -/
def endsWithReport (evs : List Event) : Bool :=
  match lastEvent evs with
  | some e => !isSend e
  | none => false

example : loadRepo "  " (.ok ⟨true, .ok ⟨none, some "hi", none, none⟩⟩)
    = ([.alert "Please enter a GitHub repo URL"], none) := by decide

example : lastWrite .files
    (loadRepo "u" (.ok ⟨true, .ok ⟨none, some "42 files", none, none⟩⟩)).1
    = some "42 files" := by decide

example : lastWrite .files
    (loadRepo "u" (.ok ⟨false, .error "Unexpected token"⟩)).1 = some "" := by decide

/-- C1 counterexample: for a non-success (500-style) response whose body
does not parse as JSON, `loadRepo` sets the files display to the empty
string, not to `"Error: Failed to load repository"` as the claim states —
the parse-failure branch clears the display and returns before the status
check is reached. -/
theorem claim_C1_counterexample :
    lastWrite .files
        (loadRepo "https://github.com/u/r" (.ok ⟨false, .error "Unexpected token"⟩)).1
      = some "" ∧
    lastWrite .files
        (loadRepo "https://github.com/u/r" (.ok ⟨false, .error "Unexpected token"⟩)).1
      ≠ some "Error: Failed to load repository" := by
  decide

/-- C1 amended: for every `/load_repo` response with a non-success status
whose body is not parseable as JSON, `loadRepo` sets the files display to
the empty string (the unparseable-body branch runs before the status
check). -/
theorem claim_C1_amended (rawUrl pm : String) (h : jsTrim rawUrl ≠ "") :
    lastWrite .files (loadRepo rawUrl (.ok ⟨false, .error pm⟩)).1 = some "" := by
  simp [loadRepo, h, loadRepoTry, jsTry, lastWrite]

/-- C1 amended, witness at a concrete input. -/
theorem claim_C1_amended_witness :
    jsTrim "https://github.com/u/r" ≠ "" ∧
    lastWrite .files
        (loadRepo "https://github.com/u/r" (.ok ⟨false, .error "bad json"⟩)).1 = some "" :=
  ⟨by decide, claim_C1_amended "https://github.com/u/r" "bad json" (by decide)⟩

/-- C2: for every `/load_repo` response with a success status whose body
is not parseable as JSON, `loadRepo` sets the files display to the empty
string, and no event of the run reports an error message. -/
theorem claim_C2 (rawUrl pm : String) (h : jsTrim rawUrl ≠ "") :
    lastWrite .files (loadRepo rawUrl (.ok ⟨true, .error pm⟩)).1 = some "" ∧
    (loadRepo rawUrl (.ok ⟨true, .error pm⟩)).1.all (fun e => !reportsError e) = true := by
  simp +decide [loadRepo, h, loadRepoTry, jsTry, lastWrite, reportsError]

/-- C2, witness at a concrete input. -/
theorem claim_C2_witness :
    jsTrim "https://github.com/u/r" ≠ "" ∧
    (lastWrite .files
        (loadRepo "https://github.com/u/r" (.ok ⟨true, .error "bad json"⟩)).1 = some "" ∧
      (loadRepo "https://github.com/u/r" (.ok ⟨true, .error "bad json"⟩)).1.all
        (fun e => !reportsError e) = true) :=
  ⟨by decide, claim_C2 "https://github.com/u/r" "bad json" (by decide)⟩

/-- C6: for every `/load_repo` response with a success status whose body
parses as JSON and carries a message field, `loadRepo` sets the files
display to that message verbatim. -/
theorem claim_C6 (rawUrl m : String) (data : JsonBody)
    (h : jsTrim rawUrl ≠ "") (hm : data.message = some m) :
    lastWrite .files (loadRepo rawUrl (.ok ⟨true, .ok data⟩)).1 = some m := by
  simp [loadRepo, h, loadRepoTry, jsTry, lastWrite, jsToString, hm]

/-- C6, witness: a successful response with body message `"42 files"`
displays exactly `"42 files"`. -/
theorem claim_C6_witness :
    jsTrim "https://github.com/u/r" ≠ "" ∧
    lastWrite .files
        (loadRepo "https://github.com/u/r"
          (.ok ⟨true, .ok ⟨none, some "42 files", none, none⟩⟩)).1 = some "42 files" :=
  ⟨by decide,
    claim_C6 "https://github.com/u/r" "42 files" ⟨none, some "42 files", none, none⟩
      (by decide) rfl⟩

/-- C4 counterexample: the claim says the server-supplied error field is
displayed whenever it is present, but `data.error || fallback` treats a
present-but-empty error field as falsy: a non-success response with body
error field `""` displays the generic fallback, not `"Error: "`. -/
theorem claim_C4_counterexample :
    lastWrite .files
        (loadRepo "https://github.com/u/r"
          (.ok ⟨false, .ok ⟨some "", none, none, none⟩⟩)).1
      = some "Error: Failed to load repository" ∧
    lastWrite .files
        (loadRepo "https://github.com/u/r"
          (.ok ⟨false, .ok ⟨some "", none, none, none⟩⟩)).1
      ≠ some ("Error: " ++ "") := by
  decide

/-- C4 amended: for every `/load_repo` response with a non-success status
whose body parses as JSON, `loadRepo` displays `"Error: "` followed by the
server-supplied error field when that field is present and non-empty, and
`"Error: Failed to load repository"` when it is absent or empty. -/
theorem claim_C4_amended (rawUrl : String) (data : JsonBody) (h : jsTrim rawUrl ≠ "") :
    (∀ s, data.error = some s → s ≠ "" →
      lastWrite .files (loadRepo rawUrl (.ok ⟨false, .ok data⟩)).1
        = some ("Error: " ++ s)) ∧
    ((data.error = none ∨ data.error = some "") →
      lastWrite .files (loadRepo rawUrl (.ok ⟨false, .ok data⟩)).1
        = some "Error: Failed to load repository") := by
  constructor
  · intro s hs hne
    simp [loadRepo, h, loadRepoTry, jsTry, lastWrite, jsOrElse, hs, hne]
  · rintro (he | he) <;>
      simp [loadRepo, h, loadRepoTry, jsTry, lastWrite, jsOrElse, he]

/-- C4 amended, witness: a 500-style response with body error
`"rate limited"` displays `"Error: rate limited"`. -/
theorem claim_C4_amended_witness :
    jsTrim "https://github.com/u/r" ≠ "" ∧
    lastWrite .files
        (loadRepo "https://github.com/u/r"
          (.ok ⟨false, .ok ⟨some "rate limited", none, none, none⟩⟩)).1
      = some ("Error: " ++ "rate limited") :=
  ⟨by decide,
    (claim_C4_amended "https://github.com/u/r" ⟨some "rate limited", none, none, none⟩
        (by decide)).1 "rate limited" rfl (by decide)⟩

/-- C5: on an empty (after trimming) repo URL, `loadRepo` only raises the
blocking validation alert and sends no request; on an empty role or repo
URL, `generateSummary` only writes the inline guidance message and sends
no request. -/
theorem claim_C5 (rawUrl rawRole rawSumUrl : String) (o1 o2 : FetchOutcome)
    (h1 : jsTrim rawUrl = "") (h2 : jsTrim rawRole = "" ∨ jsTrim rawSumUrl = "") :
    (loadRepo rawUrl o1 = ([.alert "Please enter a GitHub repo URL"], none) ∧
      (loadRepo rawUrl o1).1.all (fun e => !isSend e) = true) ∧
    (generateSummary rawRole rawSumUrl o2 =
        ([.write .summaryBox "Please enter both repo URL and role."], none) ∧
      (generateSummary rawRole rawSumUrl o2).1.all (fun e => !isSend e) = true) := by
  refine ⟨⟨?_, ?_⟩, ?_⟩
  · simp [loadRepo, h1]
  · simp [loadRepo, h1, isSend]
  · rcases h2 with h | h <;>
      exact ⟨by simp [generateSummary, h], by simp [generateSummary, h, isSend]⟩

/-- C5, witness at concrete inputs (whitespace-only URL; empty role). -/
theorem claim_C5_witness :
    jsTrim "   " = "" ∧ (jsTrim " " = "" ∨ jsTrim "https://github.com/u/r" = "") ∧
    ((loadRepo "   " (.error "net down") =
        ([.alert "Please enter a GitHub repo URL"], none) ∧
      (loadRepo "   " (.error "net down")).1.all (fun e => !isSend e) = true) ∧
    (generateSummary " " "https://github.com/u/r" (.error "net down") =
        ([.write .summaryBox "Please enter both repo URL and role."], none) ∧
      (generateSummary " " "https://github.com/u/r" (.error "net down")).1.all
        (fun e => !isSend e) = true)) :=
  ⟨by decide, by decide,
    claim_C5 "   " " " "https://github.com/u/r" (.error "net down") (.error "net down")
      (by decide) (.inl (by decide))⟩

/-- C8: for every `/process_repo` response with a success status whose
body is not parseable as JSON, `generateSummary` sets the summary box to
the explicit unexpected-response error message, not to the empty
string. -/
theorem claim_C8 (rawRole rawSumUrl pm : String)
    (h1 : jsTrim rawRole ≠ "") (h2 : jsTrim rawSumUrl ≠ "") :
    lastWrite .summaryBox
        (generateSummary rawRole rawSumUrl (.ok ⟨true, .error pm⟩)).1
      = some "Error: Unexpected response. Please check the backend." ∧
    lastWrite .summaryBox
        (generateSummary rawRole rawSumUrl (.ok ⟨true, .error pm⟩)).1 ≠ some "" := by
  constructor <;>
    simp [generateSummary, h1, h2, generateSummaryTry, jsTry, lastWrite]

/-- C8, witness at a concrete input. -/
theorem claim_C8_witness :
    jsTrim "developer" ≠ "" ∧ jsTrim "https://github.com/u/r" ≠ "" ∧
    (lastWrite .summaryBox
        (generateSummary "developer" "https://github.com/u/r"
          (.ok ⟨true, .error "bad json"⟩)).1
      = some "Error: Unexpected response. Please check the backend." ∧
    lastWrite .summaryBox
        (generateSummary "developer" "https://github.com/u/r"
          (.ok ⟨true, .error "bad json"⟩)).1 ≠ some "") :=
  ⟨by decide, by decide,
    claim_C8 "developer" "https://github.com/u/r" "bad json" (by decide) (by decide)⟩

/-- C10: for every `/process_repo` response whose body is not parseable as
JSON, regardless of the status flag, `generateSummary` displays exactly
the unexpected-response error message — a non-JSON body on an error status
never reaches the status-based error branch. -/
theorem claim_C10 (rawRole rawSumUrl pm : String) (ok : Bool)
    (h1 : jsTrim rawRole ≠ "") (h2 : jsTrim rawSumUrl ≠ "") :
    lastWrite .summaryBox
        (generateSummary rawRole rawSumUrl (.ok ⟨ok, .error pm⟩)).1
      = some "Error: Unexpected response. Please check the backend." := by
  simp [generateSummary, h1, h2, generateSummaryTry, jsTry, lastWrite]

/-- C10, witness at a concrete input with a non-success status. -/
theorem claim_C10_witness :
    jsTrim "developer" ≠ "" ∧ jsTrim "https://github.com/u/r" ≠ "" ∧
    lastWrite .summaryBox
        (generateSummary "developer" "https://github.com/u/r"
          (.ok ⟨false, .error "bad json"⟩)).1
      = some "Error: Unexpected response. Please check the backend." :=
  ⟨by decide, by decide,
    claim_C10 "developer" "https://github.com/u/r" "bad json" false (by decide) (by decide)⟩

/-- C3: for every non-empty (after trimming) question and every fetch
outcome, the first event of the `askQuestion` run is the `"You: ..."` chat
append — it precedes the request send and all response handling,
regardless of eventual success or failure. -/
theorem claim_C3 (rawQ : String) (o : FetchOutcome) (h : jsTrim rawQ ≠ "") :
    ∃ rest, (askQuestion rawQ o).1
      = Event.chatAppend ("You: " ++ jsTrim rawQ) :: rest := by
  refine ⟨(jsTry (askQuestionTry (jsTrim rawQ) o)
    (fun e => [.chatAppend ("Error: " ++ e)])).1, ?_⟩
  simp [askQuestion, h]

/-- C3, witness at a concrete input with a failing outcome. -/
theorem claim_C3_witness :
    jsTrim " what is this repo? " ≠ "" ∧
    ∃ rest, (askQuestion " what is this repo? " (.error "network down")).1
      = Event.chatAppend ("You: " ++ jsTrim " what is this repo? ") :: rest :=
  ⟨by decide, claim_C3 " what is this repo? " (.error "network down") (by decide)⟩

/-- Helper: `chatEntries` distributes over trace concatenation. -/
theorem chatEntries_append (a b : List Event) :
    chatEntries (a ++ b) = chatEntries a ++ chatEntries b :=
  List.filterMap_append a b _

/-- Helper: a run of `askQuestion` on a non-empty question appends exactly
two chat entries: the `"You: ..."` entry, then a `"Bot: ..."` or
`"Error: ..."` entry. -/
theorem askQuestion_chat_shape (rawQ : String) (o : FetchOutcome) (h : jsTrim rawQ ≠ "") :
    ∃ r, chatEntries (askQuestion rawQ o).1 = ["You: " ++ jsTrim rawQ, r] ∧
      ((∃ m, r = "Bot: " ++ m) ∨ ∃ m, r = "Error: " ++ m) := by
  rcases o with e | ⟨ok, body⟩
  · refine ⟨"Error: " ++ e, ?_, .inr ⟨e, rfl⟩⟩
    simp [askQuestion, h, askQuestionTry, jsTry, chatEntries]
  · cases ok
    · refine ⟨"Error: " ++ "Failed to get answer", ?_, .inr ⟨_, rfl⟩⟩
      simp [askQuestion, h, askQuestionTry, jsTry, chatEntries]
    · rcases body with e | data
      · refine ⟨"Error: " ++ e, ?_, .inr ⟨e, rfl⟩⟩
        simp [askQuestion, h, askQuestionTry, jsTry, chatEntries]
      · refine ⟨"Bot: " ++ jsToString data.answer, ?_, .inl ⟨_, rfl⟩⟩
        simp [askQuestion, h, askQuestionTry, jsTry, chatEntries]

/-- C7: two sequential `askQuestion` runs with non-empty questions append
exactly four chat-log entries, in call order: the first run's
`"You: ..."` entry, its `"Bot: ..."` or `"Error: ..."` entry, then the
second run's `"You: ..."` entry and its `"Bot: ..."` or `"Error: ..."`
entry. -/
theorem claim_C7 (q1 q2 : String) (o1 o2 : FetchOutcome)
    (h1 : jsTrim q1 ≠ "") (h2 : jsTrim q2 ≠ "") :
    ∃ r1 r2,
      chatEntries ((askQuestion q1 o1).1 ++ (askQuestion q2 o2).1) =
        ["You: " ++ jsTrim q1, r1, "You: " ++ jsTrim q2, r2] ∧
      ((∃ m, r1 = "Bot: " ++ m) ∨ ∃ m, r1 = "Error: " ++ m) ∧
      ((∃ m, r2 = "Bot: " ++ m) ∨ ∃ m, r2 = "Error: " ++ m) := by
  obtain ⟨r1, e1, p1⟩ := askQuestion_chat_shape q1 o1 h1
  obtain ⟨r2, e2, p2⟩ := askQuestion_chat_shape q2 o2 h2
  refine ⟨r1, r2, ?_, p1, p2⟩
  rw [chatEntries_append, e1, e2]
  rfl

/-- C7, witness: a successful first call and a failing second call. -/
theorem claim_C7_witness :
    jsTrim "first question" ≠ "" ∧ jsTrim "second question" ≠ "" ∧
    ∃ r1 r2,
      chatEntries
          ((askQuestion "first question"
              (.ok ⟨true, .ok ⟨none, none, some "an answer", none⟩⟩)).1 ++
            (askQuestion "second question" (.ok ⟨false, .ok ⟨none, none, none, none⟩⟩)).1) =
        ["You: " ++ jsTrim "first question", r1,
          "You: " ++ jsTrim "second question", r2] ∧
      ((∃ m, r1 = "Bot: " ++ m) ∨ ∃ m, r1 = "Error: " ++ m) ∧
      ((∃ m, r2 = "Bot: " ++ m) ∨ ∃ m, r2 = "Error: " ++ m) :=
  ⟨by decide, by decide,
    claim_C7 "first question" "second question"
      (.ok ⟨true, .ok ⟨none, none, some "an answer", none⟩⟩)
      (.ok ⟨false, .ok ⟨none, none, none, none⟩⟩) (by decide) (by decide)⟩

/-- Helper: every `loadRepo` run lets no exception escape and ends with an
operator-visible report. -/
theorem loadRepo_reports (rawUrl : String) (o : FetchOutcome) :
    (loadRepo rawUrl o).2 = none ∧ endsWithReport (loadRepo rawUrl o).1 = true := by
  by_cases h : jsTrim rawUrl = ""
  · simp [loadRepo, h, endsWithReport, lastEvent, isSend]
  · rcases o with e | ⟨ok, body⟩
    · simp [loadRepo, h, loadRepoTry, jsTry, endsWithReport, lastEvent, isSend]
    · rcases body with e | data
      · simp [loadRepo, h, loadRepoTry, jsTry, endsWithReport, lastEvent, isSend]
      · cases ok <;>
          simp [loadRepo, h, loadRepoTry, jsTry, endsWithReport, lastEvent, isSend]

/-- Helper: every `askQuestion` run lets no exception escape and ends with
an operator-visible report. -/
theorem askQuestion_reports (rawQ : String) (o : FetchOutcome) :
    (askQuestion rawQ o).2 = none ∧ endsWithReport (askQuestion rawQ o).1 = true := by
  by_cases h : jsTrim rawQ = ""
  · simp [askQuestion, h, endsWithReport, lastEvent, isSend]
  · rcases o with e | ⟨ok, body⟩
    · simp [askQuestion, h, askQuestionTry, jsTry, endsWithReport, lastEvent, isSend]
    · cases ok
      · simp [askQuestion, h, askQuestionTry, jsTry, endsWithReport, lastEvent, isSend]
      · rcases body with e | data <;>
          simp [askQuestion, h, askQuestionTry, jsTry, endsWithReport, lastEvent, isSend]

/-- Helper: every `generateSummary` run lets no exception escape and ends
with an operator-visible report. -/
theorem generateSummary_reports (rawRole rawSumUrl : String) (o : FetchOutcome) :
    (generateSummary rawRole rawSumUrl o).2 = none ∧
      endsWithReport (generateSummary rawRole rawSumUrl o).1 = true := by
  by_cases h : jsTrim rawSumUrl = "" ∨ jsTrim rawRole = ""
  · rcases h with h | h <;>
      simp [generateSummary, h, endsWithReport, lastEvent, isSend]
  · push_neg at h
    rcases o with e | ⟨ok, body⟩
    · simp [generateSummary, h.1, h.2, generateSummaryTry, jsTry,
        endsWithReport, lastEvent, isSend]
    · rcases body with e | data
      · simp [generateSummary, h.1, h.2, generateSummaryTry, jsTry,
          endsWithReport, lastEvent, isSend]
      · cases ok <;>
          simp [generateSummary, h.1, h.2, generateSummaryTry, jsTry,
            endsWithReport, lastEvent, isSend]

/-- C9: for every input and every fetch outcome, each of the three
handlers terminates with an operator-visible report (alert, display write
or chat append) as its last event and never lets an exception escape to
its caller. -/
theorem claim_C9 (rawUrl rawQ rawRole rawSumUrl : String) (o1 o2 o3 : FetchOutcome) :
    ((loadRepo rawUrl o1).2 = none ∧ endsWithReport (loadRepo rawUrl o1).1 = true) ∧
    ((askQuestion rawQ o2).2 = none ∧ endsWithReport (askQuestion rawQ o2).1 = true) ∧
    ((generateSummary rawRole rawSumUrl o3).2 = none ∧
      endsWithReport (generateSummary rawRole rawSumUrl o3).1 = true) :=
  ⟨loadRepo_reports rawUrl o1, askQuestion_reports rawQ o2,
    generateSummary_reports rawRole rawSumUrl o3⟩

end AgentCoder
